import Mathlib

/-!
Shallow embedding of the liquidtux hwmon drivers (corsair-hydro-platinum,
nzxt-grid3, nzxt-smartdevice, nzxt-kraken3, nzxt-rgb-fan-controller,
razer_hanbo) sufficient to settle the frozen claims about report
validation, staleness, duty-cycle scaling, curve composition, command
ordering and inbound channel-index handling.

Machine integers are modelled as Nat (bytes, masked where the C code
masks) and Int (jiffies timestamps, C long values).  Fallible paths
return either an explicit negative errno (as the C code does) or an
Except value; functions that transmit reports additionally return the
list of transmitted payloads so that "nothing was sent" is expressible.
-/

namespace Liquidtux

/-! ## CRC-8 (lib/crc8.c semantics, as used by corsair-hydro-platinum)

The driver calls crc8_populate_msb(table, 0x07) and
crc8(table, buf, len, crc).  The kernel library builds, for an MSB-first
polynomial, the table entry for byte b as eight shift-and-conditional-xor
rounds applied to b (truncated to 8 bits); crc8 then folds
crc = table[(crc ^ byte) & 0xff] over the buffer. -/

/-- One MSB-first CRC-8 round for polynomial 0x07:
t := (t << 1) ^ (t & 0x80 ? 0x07 : 0), truncated to a byte. -/
def crc8_round (t : Nat) : Nat :=
  if t &&& 0x80 ≠ 0 then ((t <<< 1) ^^^ 0x07) &&& 0xff else (t <<< 1) &&& 0xff

/-- Table entry of crc8_populate_msb(corsair_crc8_table, 0x07) for byte b:
eight MSB-first rounds applied to b. -/
def corsair_crc8_table (b : Nat) : Nat :=
  crc8_round^[8] b

/-- crc8(table, pdata, nbytes, crc) from lib/crc8.c:
crc = table[(crc ^ *pdata++) & 0xff] over the buffer. -/
def crc8 (pdata : List Nat) (crc : Nat) : Nat :=
  pdata.foldl (fun c b => corsair_crc8_table ((c ^^^ b) &&& 0xff)) crc

/-- The inbound-report CRC check in hydro_platinum_transaction:
the report passes iff crc8 over bytes 1..63 (rx_buffer + 1,
REPORT_LENGTH - 1 = 63 bytes) with initial value 0 yields 0. -/
def hydro_platinum_crc_ok (report : List Nat) : Bool :=
  crc8 ((report.drop 1).take 63) 0 == 0

/-- Flip bit j of byte i of a report. -/
def flip_bit (r : List Nat) (i j : Nat) : List Nat :=
  r.set i (r.getD i 0 ^^^ (1 <<< j))

/-! ## Shared helpers: errno values, jiffies comparison, field extraction -/

/-- Errno EIO, returned negated as the C code does. -/
def errInputOutput : Int := 5

/-- Errno EINVAL. -/
def errInvalidValue : Int := 22

/-- Errno ETIMEDOUT. -/
def errTimedOut : Int := 110

/-- Errno ENODATA. -/
def errNoData : Int := 61

/-- Errno EPIPE. -/
def errBrokenPipe : Int := 32

/-- The kernel time_after(a, b) macro: true iff a is strictly later than b.
Jiffies are modelled as unbounded integers (the macro's wraparound
arithmetic computes exactly this in the non-overflow regime). -/
def time_after (a b : Int) : Bool :=
  decide (b < a)

/-- get_unaligned_le16 over two bytes. -/
def get_unaligned_le16 (lo hi : Nat) : Nat :=
  lo + 256 * hi

/-- get_unaligned_be16 over two bytes. -/
def get_unaligned_be16 (hi lo : Nat) : Nat :=
  256 * hi + lo

/-- clamp_val. -/
def clamp_val (v lo hi : Int) : Int :=
  max lo (min v hi)

/-- The kernel DIV_ROUND_CLOSEST macro in its nonnegative-dividend,
positive-divisor form: (x + d/2) / d. -/
def div_round_closest (x d : Int) : Int :=
  (x + d / 2) / d

/-- Modelled from the spec: "rounding to nearest (round(val*100/255) and
inverse round(percent*255/100))" — round-to-nearest of x / y as the
reference definition the source conversions are compared against. -/
def round_nearest_spec (x y : Nat) : Nat :=
  (2 * x + y) / (2 * y)

/-! ## corsair-hydro-platinum: sensor state, status update, raw_event,
write_cooling -/

/-- The sensor-cache and sequencing fields of struct hydro_platinum_data
(fixed-size per-fan arrays are unrolled into one field per slot). -/
structure HydroPlatinumData where
  sequence : Nat
  fan_speed1 : Nat
  fan_speed2 : Nat
  fan_speed3 : Nat
  fan_duty1 : Nat
  fan_duty2 : Nat
  fan_duty3 : Nat
  pump_speed : Nat
  pump_duty : Nat
  liquid_temp : Int
  fw_major : Nat
  fw_minor : Nat
  fw_patch : Nat
  fan_count : Nat
  updated : Int
  valid : Bool
deriving DecidableEq

/-- STATUS_VALIDITY for the hydro platinum driver (1000 ms); jiffies are
modelled in milliseconds (msecs_to_jiffies is the identity, HZ = 1000). -/
def hydroStatusValidity : Int := 1000

/-- The freshly devm_kzalloc'ed (all-zero) driver state. -/
def hydroZeroState : HydroPlatinumData :=
  ⟨0, 0, 0, 0, 0, 0, 0, 0, 0, 0, 0, 0, 0, 0, 0, false⟩

/-- Temperature decode of hydro_platinum_update:
((int)rx[8] * 1000) + ((int)rx[7] * 1000 / 255). -/
def hydro_platinum_decode_temp (deg frac : Nat) : Int :=
  (deg : Int) * 1000 + (frac : Int) * 1000 / 255

/-- The sensor-parsing tail of hydro_platinum_update, run on the received
report after the CRC check has passed. -/
def hydro_platinum_parse_status (s : HydroPlatinumData) (now : Int)
    (rx : List Nat) : HydroPlatinumData :=
  let b := fun i => rx.getD i 0
  let s :=
    if s.valid then s
    else { s with fw_major := b 2 >>> 4, fw_minor := b 2 &&& 0x0f,
                  fw_patch := b 3 }
  let s := { s with
    liquid_temp := hydro_platinum_decode_temp (b 8) (b 7),
    pump_speed := get_unaligned_le16 (b 29) (b 30),
    pump_duty := b 28 }
  let s := if 1 ≤ s.fan_count then
      { s with fan_speed1 := get_unaligned_le16 (b 15) (b 16),
               fan_duty1 := b 14 }
    else s
  let s := if 2 ≤ s.fan_count then
      { s with fan_speed2 := get_unaligned_le16 (b 22) (b 23),
               fan_duty2 := b 21 }
    else s
  let s := if 3 ≤ s.fan_count then
      { s with fan_speed3 := get_unaligned_le16 (b 43) (b 44),
               fan_duty3 := b 42 }
    else s
  { s with updated := now, valid := true }

/-- hydro_platinum_update: when the cache is stale or not yet valid, run a
status transaction (hydro_platinum_send_command advances the sequence
counter; the delivered report, if any, is CRC-checked) and parse the
sensors on success.  resp is the report delivered by raw_event, or none
on timeout.  Returns the C result (-ETIMEDOUT / -EIO on failure) and the
final state. -/
def hydro_platinum_update (s : HydroPlatinumData) (now : Int)
    (resp : Option (List Nat)) : Except Int Unit × HydroPlatinumData :=
  if time_after now (s.updated + hydroStatusValidity) || !s.valid then
    let s1 := { s with sequence := s.sequence % 31 + 1 }
    match resp with
    | none => (.error (-errTimedOut), s1)
    | some rx =>
      if hydro_platinum_crc_ok rx then
        (.ok (), hydro_platinum_parse_status s1 now rx)
      else
        (.error (-errInputOutput), s1)
  else (.ok (), s)

/-- hydro_platinum_raw_event: non-input reports are ignored; any input
report is copied into the RX buffer (truncated to REPORT_LENGTH + 16 =
80 bytes) and the waiter is completed unconditionally.  Returns the new
RX buffer and whether complete() was called. -/
def hydro_platinum_raw_event (isInputReport : Bool)
    (rx_buffer data : List Nat) : List Nat × Bool :=
  if !isInputReport then (rx_buffer, false)
  else
    let sz := min data.length 80
    (data.take sz ++ rx_buffer.drop sz, true)

/-- The post-wakeup CRC verification of hydro_platinum_transaction on the
report found in the RX buffer. -/
def hydro_platinum_transaction_check (rx : List Nat) : Except Int Unit :=
  if hydro_platinum_crc_ok rx then .ok () else .error (-errInputOutput)

/-- The target_* control fields of struct hydro_platinum_data used by
hydro_platinum_write_cooling. -/
structure HydroTargets where
  fan_count : Nat
  target_pump_mode : Nat
  target_fan_mode1 : Nat
  target_fan_mode2 : Nat
  target_fan_mode3 : Nat
  target_fan_duty1 : Nat
  target_fan_duty2 : Nat
  target_fan_duty3 : Nat
deriving DecidableEq

/-- FAN_MODE_FIXED_DUTY. -/
def FAN_MODE_FIXED_DUTY : Nat := 0x02

/-- FEATURE_COOLING (main command: pump + fan 1 + fan 2). -/
def FEATURE_COOLING : Nat := 0x00

/-- FEATURE_COOLING_FAN3 (secondary command: fan 3 only). -/
def FEATURE_COOLING_FAN3 : Nat := 0x03

/-- The 60-byte Set Cooling payload built by hydro_platinum_write_cooling
for the main command. -/
def hydro_platinum_cooling_payload (p : HydroTargets) : List Nat :=
  let d := List.replicate 60 0
  let d := d.set 0 0x00
  let d := d.set 1 0xff
  let d := d.set 2 0x05
  let d := ((((d.set 3 0xff).set 4 0xff).set 5 0xff).set 6 0xff).set 7 0xff
  let d := d.set 26 7
  let d := d.set 20 p.target_pump_mode
  let d := if 1 ≤ p.fan_count then
      let d := d.set 8 p.target_fan_mode1
      if p.target_fan_mode1 = FAN_MODE_FIXED_DUTY then
        d.set 13 p.target_fan_duty1
      else d
    else d
  let d := if 2 ≤ p.fan_count then
      let d := d.set 14 p.target_fan_mode2
      if p.target_fan_mode2 = FAN_MODE_FIXED_DUTY then
        d.set 19 p.target_fan_duty2
      else d
    else d
  d

/-- The secondary (fan 3) payload: a copy of the main payload with the
pump mode re-set, fan 1/2 slots zeroed and fan 3 moved into the fan 1
slot. -/
def hydro_platinum_cooling_payload2 (p : HydroTargets) (d : List Nat) :
    List Nat :=
  let d2 := d.set 20 p.target_pump_mode
  let d2 := (((d2.set 8 0).set 13 0).set 14 0).set 19 0
  let d2 := d2.set 8 p.target_fan_mode3
  if p.target_fan_mode3 = FAN_MODE_FIXED_DUTY then
    d2.set 13 p.target_fan_duty3
  else d2

/-- hydro_platinum_write_cooling: sends the main Set Cooling transaction
first and, only if it succeeded and a third fan exists, the secondary
one.  outcome n is the result of the n-th hydro_platinum_transaction.
Returns the C result and the ordered trace of (feature, payload)
transactions that were attempted. -/
def hydro_platinum_write_cooling (p : HydroTargets)
    (outcome : Nat → Except Int Unit) :
    Except Int Unit × List (Nat × List Nat) :=
  let d := hydro_platinum_cooling_payload p
  match outcome 0 with
  | .error e => (.error e, [(FEATURE_COOLING, d)])
  | .ok () =>
    if 3 ≤ p.fan_count then
      let d2 := hydro_platinum_cooling_payload2 p d
      match outcome 1 with
      | .error e =>
        (.error e, [(FEATURE_COOLING, d), (FEATURE_COOLING_FAN3, d2)])
      | .ok () =>
        (.ok (), [(FEATURE_COOLING, d), (FEATURE_COOLING_FAN3, d2)])
    else (.ok (), [(FEATURE_COOLING, d)])

/-! ## nzxt-grid3: channel status, staleness, pwm write, raw_event -/

/-- struct grid3_channel_status. -/
structure Grid3ChannelStatus where
  rpms : Nat
  centiamps : Nat
  centivolts : Nat
  pwm : Nat
  fan_type : Nat
  updated : Int
deriving DecidableEq

/-- The attribute being read through grid3_read. -/
inductive Grid3ReadKind where
  | fan
  | curr
  | inVolt
  | pwmInput
  | pwmMode
deriving DecidableEq

/-- DC_FAN = BIT(0). -/
def DC_FAN : Nat := 1

/-- The value grid3_read / grid3_read_pwm returns for each attribute
once the staleness check has passed. -/
def grid3_cached_value (ch : Grid3ChannelStatus) : Grid3ReadKind → Int
  | .fan => ch.rpms
  | .curr => ch.centiamps * 10
  | .inVolt => ch.centivolts * 10
  | .pwmInput => ch.pwm
  | .pwmMode => if ch.fan_type ≠ DC_FAN then 1 else 0

/-- grid3_read for one channel: fail with -ENODATA once jiffies is
strictly after updated + STATUS_VALIDITY * HZ, else return the cached
value.  hz is the kernel HZ constant. -/
def grid3_read (hz : Int) (ch : Grid3ChannelStatus) (now : Int)
    (ty : Grid3ReadKind) : Except Int Int :=
  let expires := ch.updated + 3 * hz
  if time_after now expires then .error (-errNoData)
  else .ok (grid3_cached_value ch ty)

/-- The per-channel initialization in grid3_driver_init_assume_locked:
updated := jiffies - STATUS_VALIDITY * HZ. -/
def grid3_init_channel_status (hz t0 : Int) (ch : Grid3ChannelStatus) :
    Grid3ChannelStatus :=
  { ch with updated := t0 - 3 * hz }

/-- grid3_write_pwm_assume_locked: clamp to 0..255, build and send the
5-byte output report (byte 4 carries val * 100 / 255), and record the
written pwm only if the send succeeded.  sendRet is the
hid_hw_output_report result.  Returns (C result, report, new channel). -/
def grid3_write_pwm_assume_locked (ch : Grid3ChannelStatus)
    (channel : Nat) (val : Int) (sendRet : Int) :
    Int × List Nat × Grid3ChannelStatus :=
  let v := (clamp_val val 0 255).toNat
  let out := [0x02, 0x4d, channel, 0x00, v * 100 / 255]
  if sendRet < 0 then (sendRet, out, ch)
  else if sendRet ≠ 5 then (-errInputOutput, out, ch)
  else (0, out, { ch with pwm := v })

/-- grid3_raw_event: accept 16-byte-or-longer status reports, decode the
channel index from the high nibble of byte 15, drop the report when the
index is greater than the channel count, else write the decoded fields
(and the timestamp) into that channel slot.  Returns the written index
and contents, or none when the report is discarded. -/
def grid3_raw_event (channels : Nat) (reportId : Nat) (data : List Nat)
    (old : Grid3ChannelStatus) (now : Int) :
    Option (Nat × Grid3ChannelStatus) :=
  if data.length < 16 || reportId ≠ 0x04 then none
  else
    let channel := data.getD 15 0 >>> 4
    if channels < channel then none
    else
      some (channel,
        { old with
          rpms := get_unaligned_be16 (data.getD 3 0) (data.getD 4 0),
          centiamps := data.getD 9 0 * 100 + data.getD 10 0,
          centivolts := data.getD 7 0 * 100 + data.getD 8 0,
          fan_type := data.getD 15 0 &&& 0x3,
          updated := now })

/-! ## nzxt-smartdevice: pwm write and raw_event -/

/-- struct smartdevice_channel_data (mode holds the fan-control mode). -/
structure SmartdeviceChannelData where
  rpms : Nat
  centiamps : Nat
  centivolts : Nat
  pwm : Nat
  mode : Nat
  updated : Int
deriving DecidableEq

/-- smartdevice_write_pwm_unlocked: identical scaling to grid3 (byte 4 is
val * 100 / 255, truncating), -EPIPE on a short write. -/
def smartdevice_write_pwm_unlocked (ch : SmartdeviceChannelData)
    (channel : Nat) (val : Int) (sendRet : Int) :
    Int × List Nat × SmartdeviceChannelData :=
  let v := (clamp_val val 0 255).toNat
  let out := [0x02, 0x4d, channel, 0x00, v * 100 / 255]
  if sendRet < 0 then (sendRet, out, ch)
  else if sendRet ≠ 5 then (-errBrokenPipe, out, ch)
  else (0, out, { ch with pwm := v })

/-- smartdevice_raw_event: same channel-index handling as grid3_raw_event
(reports with index greater than cha_cnt are dropped). -/
def smartdevice_raw_event (cha_cnt : Nat) (reportId : Nat)
    (data : List Nat) (old : SmartdeviceChannelData) (now : Int) :
    Option (Nat × SmartdeviceChannelData) :=
  if data.length < 16 || reportId ≠ 0x04 then none
  else
    let channel := data.getD 15 0 >>> 4
    if cha_cnt < channel then none
    else
      some (channel,
        { old with
          rpms := get_unaligned_be16 (data.getD 3 0) (data.getD 4 0),
          centiamps := data.getD 9 0 * 100 + data.getD 10 0,
          centivolts := data.getD 7 0 * 100 + data.getD 8 0,
          mode := data.getD 15 0 &&& 0x3,
          updated := now })

/-! ## nzxt-kraken3: duty conversion, fixed-duty curve write -/

/-- kraken3_pwm_to_percent: reject host values outside 0..255, convert
with DIV_ROUND_CLOSEST(val * 100, 255), reject percent values outside
X53_SET_PUMP_DUTY_MIN..MAX = 20..100; negative return is -EINVAL. -/
def kraken3_pwm_to_percent (val : Int) : Int :=
  if val < 0 ∨ 255 < val then -errInvalidValue
  else
    let percent_value := div_round_closest (val * 100) 255
    if percent_value < 20 ∨ 100 < percent_value then -errInvalidValue
    else percent_value

/-- x53_set_pump_duty_cmd_header. -/
def x53_set_pump_duty_cmd_header : List Nat := [0x72, 0x00, 0x00, 0x00]

/-- kraken3_write_curve followed by kraken3_write_expanded: 4-byte header
(byte 1 selects pump/fan), the 40 curve points, zero-padded to the
64-byte report. -/
def kraken3_write_curve (curve_array : List Nat) (channel : Nat) :
    List Nat :=
  let fixed_duty_cmd :=
    x53_set_pump_duty_cmd_header.set 1 (if channel = 0 then 1 else 2)
  let fixed_duty_cmd := fixed_duty_cmd ++ curve_array
  fixed_duty_cmd ++ List.replicate (64 - fixed_duty_cmd.length) 0

/-- The 40-point curve kraken3_write composes for a fixed duty: indices
0..38 (sub-critical temperatures) carry the fixed percent value, index
39 (the critical temperature point) is forced to 100. -/
def kraken3_fixed_curve (percent_value : Nat) : List Nat :=
  List.ofFn (fun i : Fin 40 =>
    if (i : Nat) < 39 then percent_value else 100)

/-- The hwmon_pwm case of kraken3_write: validate/convert the host value,
and on success compose and transmit the filled curve.  Returns the C
result and the list of transmitted reports (empty when rejected). -/
def kraken3_write (channel : Nat) (val : Int) : Int × List (List Nat) :=
  let percent_value := kraken3_pwm_to_percent val
  if percent_value < 0 then (percent_value, [])
  else
    let fixed_curve := kraken3_fixed_curve percent_value.toNat
    (0, [kraken3_write_curve fixed_curve channel])

/-! ## razer_hanbo: profile/curve send -/

/-- The pwm fields of struct hanbo_pwm_channel used by
hanbo_hid_profile_send. -/
structure HanboPwmChannel where
  pwm_points : List Nat
  profile_sticky : Bool
  active_profile : Nat
deriving DecidableEq

/-- set_pump_fan_curve_cmd_template. -/
def set_pump_fan_curve_cmd_template : List Nat :=
  [0x18, 0x01, 0x01, 0x00, 0x00, 0x00, 0x00, 0x00, 0x00, 0x00, 0x00,
   0x00, 0x00]

/-- set_pump_fan_cmd_template. -/
def set_pump_fan_cmd_template : List Nat := [0x14, 0x01, 0x00, 0x00]

/-- profile_base_duties. -/
def profile_base_duties : List Nat := [0x00, 0x14, 0x32, 0x50]

/-- The curve command built by hanbo_hid_profile_send: the template head
(bytes 0..3, with fan-channel substitutions) followed by the nine
pwm_points copied into bytes CURVE_PAYLOAD_OFFSET.. (4..12). -/
def hanbo_curve_cmd (channel : Nat) (points : List Nat) : List Nat :=
  let cmd := set_pump_fan_curve_cmd_template
  let cmd := if channel = 1 then (cmd.set 0 0xc8).set 2 0x00 else cmd
  cmd.take 4 ++ List.ofFn (fun k : Fin 9 => points.getD k 0)

/-- The sanity check of the fill loop in hanbo_hid_profile_send: the
curve is rejected iff some adjacent pair of points decreases with
increasing temperature. -/
def hanbo_curve_decreasing (points : List Nat) : Bool :=
  (List.range 8).any (fun k => points.getD (k + 1) 0 < points.getD k 0)

/-- QUIET_PROFILE_ID. -/
def QUIET_PROFILE_ID : Nat := 1

/-- CURVE_PROFILE_ID. -/
def CURVE_PROFILE_ID : Nat := 4

/-- hanbo_hid_profile_send: validate channel and profile id; for the
curve profile, validate monotonicity before transmitting the curve
command; otherwise transmit the 4-byte profile command.  sendRet is the
hanbo_hid_write_expanded (hid_hw_output_report) result.  Returns the C
result, the transmitted reports (empty when rejected before
transmission) and the channel state. -/
def hanbo_hid_profile_send (st : HanboPwmChannel) (channel profile : Nat)
    (sendRet : Int) : Int × List (List Nat) × HanboPwmChannel :=
  if 1 < channel then (-errInvalidValue, [], st)
  else if profile < QUIET_PROFILE_ID ∨ CURVE_PROFILE_ID < profile then
    (-errInvalidValue, [], st)
  else if profile = CURVE_PROFILE_ID then
    if hanbo_curve_decreasing st.pwm_points then (-errInvalidValue, [], st)
    else
      let cmd := hanbo_curve_cmd channel st.pwm_points
      let sent := cmd ++ List.replicate (64 - cmd.length) 0
      let st' := { st with profile_sticky := true }
      let st' :=
        if 0 ≤ sendRet then { st' with active_profile := profile } else st'
      (sendRet, [sent], st')
  else
    let cmd :=
      if channel = 1 then set_pump_fan_cmd_template.set 0 0x22
      else set_pump_fan_cmd_template
    let cmd := cmd.set 2 profile
    let cmd := cmd.set 3 (profile_base_duties.getD profile 0)
    let sent := cmd ++ List.replicate (64 - cmd.length) 0
    let st' := { st with profile_sticky := false }
    let st' :=
      if 0 ≤ sendRet then { st' with active_profile := profile } else st'
    (sendRet, [sent], st')

/-! ## nzxt-rgb-fan-controller: rounding scaler and pwm paths -/

/-- scale_value from nzxt-rgb-fan-controller.c: clamp at the ends, else
scale with round-half-up via the explicit remainder test. -/
def scale_value (val orig_max new_max : Int) : Int :=
  if val ≤ 0 then 0
  else if orig_max ≤ val then new_max
  else
    let val := val * new_max
    if orig_max ≤ val % orig_max * 2 then val / orig_max + 1
    else val / orig_max

/-- The hwmon_pwm_input read path: scale the cached device percent to the
0..255 host scale. -/
def rgb_read_pwm_input (duty_percent : Nat) : Int :=
  scale_value duty_percent 100 255

/-- The duty percent set_pwm embeds in its set-fan-speed report:
scale_value(val, 255, 100). -/
def rgb_set_pwm_duty_percent (val : Int) : Int :=
  scale_value val 255 100

end Liquidtux

set_option maxRecDepth 100000

namespace Liquidtux

theorem crc8_round_lt (t : Nat) : crc8_round t < 256 := by
  unfold crc8_round
  split <;> exact Nat.lt_succ_of_le (Nat.and_le_right)

theorem corsair_crc8_table_lt (b : Nat) : corsair_crc8_table b < 256 := by
  unfold corsair_crc8_table
  rw [show (8 : Nat) = 7 + 1 from rfl, Function.iterate_succ_apply']
  exact crc8_round_lt _

theorem and255_of_lt {x : Nat} (h : x < 256) : x &&& 255 = x := by
  have := Nat.and_pow_two_sub_one_of_lt_two_pow (n := 8) (x := x) (by simpa using h)
  simpa using this

theorem shiftLeft_xor_distrib (x y n : Nat) :
    (x ^^^ y) <<< n = (x <<< n) ^^^ (y <<< n) := by
  apply Nat.eq_of_testBit_eq
  intro i
  simp only [Nat.testBit_shiftLeft, Nat.testBit_xor]
  cases Nat.decLe n i with
  | isTrue h => simp [h]
  | isFalse h => simp [h]

theorem crc8_round_eq_xor_form (t : Nat) :
    crc8_round t =
      ((t <<< 1) &&& 255) ^^^ (if t.testBit 7 then 7 else 0) := by
  unfold crc8_round
  have h128 : t &&& 128 = (t.testBit 7).toNat * 128 := by
    simpa using Nat.and_two_pow t 7
  cases hb : t.testBit 7 with
  | true =>
    rw [show (0x80 : Nat) = 128 from rfl, h128, hb]
    simp only [Bool.toNat_true, one_mul, if_true]
    rw [if_pos (by decide)]
    rw [Nat.and_xor_distrib_right]
    norm_num
    decide
  | false =>
    rw [show (0x80 : Nat) = 128 from rfl, h128, hb]
    simp only [Bool.toNat_false, zero_mul, if_false]
    rw [if_neg (by decide)]
    simp

theorem xor_ite_mask (a b : Bool) :
    (if (a ^^ b) then 7 else 0) =
      ((if a then 7 else 0) ^^^ (if b then (7 : Nat) else 0)) := by
  cases a <;> cases b <;> decide

/-- Each CRC-8 round is GF(2)-linear. -/
theorem crc8_round_linear (x y : Nat) :
    crc8_round (x ^^^ y) = crc8_round x ^^^ crc8_round y := by
  rw [crc8_round_eq_xor_form, crc8_round_eq_xor_form, crc8_round_eq_xor_form]
  rw [shiftLeft_xor_distrib, Nat.and_xor_distrib_right, Nat.testBit_xor,
    xor_ite_mask]
  generalize (x <<< 1) &&& 255 = a
  generalize (y <<< 1) &&& 255 = b
  generalize (if x.testBit 7 then 7 else (0 : Nat)) = c
  generalize (if y.testBit 7 then 7 else (0 : Nat)) = d
  rw [Nat.xor_assoc, ← Nat.xor_assoc b c d, Nat.xor_comm b c,
    Nat.xor_assoc c b d, ← Nat.xor_assoc a c (b ^^^ d)]

/-- The CRC-8 table (eight rounds) is GF(2)-linear. -/
theorem corsair_crc8_table_linear (x y : Nat) :
    corsair_crc8_table (x ^^^ y) =
      corsair_crc8_table x ^^^ corsair_crc8_table y := by
  unfold corsair_crc8_table
  have : ∀ k x y, crc8_round^[k] (x ^^^ y) =
      crc8_round^[k] x ^^^ crc8_round^[k] y := by
    intro k
    induction k with
    | zero => intro x y; rfl
    | succ n ih =>
      intro x y
      rw [Function.iterate_succ_apply', Function.iterate_succ_apply',
        Function.iterate_succ_apply', ih, crc8_round_linear]
  exact this 8 x y

/-- The CRC-8 table maps nonzero bytes to nonzero values (the polynomial
0x07 has nonzero constant term, so multiplication by x^8 is invertible). -/
theorem corsair_crc8_table_ne_zero :
    ∀ x : Fin 256, x.val ≠ 0 → corsair_crc8_table x.val ≠ 0 := by
  decide

theorem corsair_crc8_table_zero : corsair_crc8_table 0 = 0 := by decide

theorem xor_xor_xor_comm (a b c d : Nat) :
    (a ^^^ b) ^^^ (c ^^^ d) = (a ^^^ c) ^^^ (b ^^^ d) := by
  rw [Nat.xor_assoc, Nat.xor_assoc, ← Nat.xor_assoc b c d,
    Nat.xor_comm b c, Nat.xor_assoc c b d]

theorem crc8_append (a b : List Nat) (c : Nat) :
    crc8 (a ++ b) c = crc8 b (crc8 a c) := by
  simp [crc8, List.foldl_append]

theorem crc8_cons (b : Nat) (t : List Nat) (c : Nat) :
    crc8 (b :: t) c = crc8 t (corsair_crc8_table ((c ^^^ b) &&& 255)) :=
  rfl

theorem crc8_lt (m : List Nat) (c : Nat) (hc : c < 256) :
    crc8 m c < 256 := by
  induction m generalizing c with
  | nil => exact hc
  | cons b t ih => rw [crc8_cons]; exact ih _ (corsair_crc8_table_lt _)

/-- GF(2)-linearity of the CRC-8 fold with initial value folded in. -/
theorem crc8_fold_linear :
    ∀ (m e : List Nat), m.length = e.length → ∀ c d : Nat,
      crc8 (List.zipWith (· ^^^ ·) m e) (c ^^^ d) = crc8 m c ^^^ crc8 e d := by
  intro m
  induction m with
  | nil =>
    intro e he c d
    cases e with
    | nil => rfl
    | cons b2 t2 => simp at he
  | cons b1 t1 ih =>
    intro e he c d
    cases e with
    | nil => simp at he
    | cons b2 t2 =>
      simp only [List.length_cons, Nat.succ.injEq] at he
      rw [List.zipWith_cons_cons, crc8_cons, crc8_cons, crc8_cons]
      rw [show (c ^^^ d) ^^^ (b1 ^^^ b2) = (c ^^^ b1) ^^^ (d ^^^ b2) from
        xor_xor_xor_comm c d b1 b2]
      rw [Nat.and_xor_distrib_right, corsair_crc8_table_linear]
      exact ih t2 he _ _

theorem zipWith_xor_replicate_zero (m : List Nat) :
    List.zipWith (· ^^^ ·) m (List.replicate m.length 0) = m := by
  induction m with
  | nil => rfl
  | cons a t ih => simp [List.replicate_succ, ih]

/-- Replacing byte i of m by (m[i] xor x) is a pointwise xor with the
unit vector carrying x at position i. -/
theorem set_eq_zipWith_unit :
    ∀ (m : List Nat) (i x : Nat), i < m.length →
      m.set i (m.getD i 0 ^^^ x) =
        List.zipWith (· ^^^ ·) m
          (List.replicate i 0 ++ x :: List.replicate (m.length - i - 1) 0) := by
  intro m
  induction m with
  | nil => intro i x h; simp at h
  | cons a t ih =>
    intro i x h
    cases i with
    | zero =>
      simp only [List.getD_cons_zero, List.set_cons_zero,
        List.replicate, List.nil_append, List.length_cons,
        Nat.add_sub_cancel, List.zipWith_cons_cons]
      rw [show t.length + 1 - 0 - 1 = t.length by omega,
        zipWith_xor_replicate_zero]
    | succ k =>
      have hk : k < t.length := by
        simpa [Nat.succ_lt_succ_iff] using h
      simp only [List.getD_cons_succ, List.set_cons_succ,
        List.replicate_succ, List.cons_append, List.zipWith_cons_cons,
        Nat.xor_zero, List.length_cons]
      rw [show t.length + 1 - (k + 1) - 1 = t.length - k - 1 by omega]
      rw [ih k x hk]

theorem crc8_replicate_zero (k : Nat) :
    crc8 (List.replicate k 0) 0 = 0 := by
  induction k with
  | zero => rfl
  | succ n ih =>
    rw [List.replicate_succ, crc8_cons]
    simpa [corsair_crc8_table_zero] using ih

theorem crc8_replicate_zero_ne_zero (k : Nat) :
    ∀ c : Nat, c < 256 → c ≠ 0 → crc8 (List.replicate k 0) c ≠ 0 := by
  induction k with
  | zero => intro c _ hc0; exact hc0
  | succ n ih =>
    intro c hc hc0
    rw [List.replicate_succ, crc8_cons, Nat.xor_zero, and255_of_lt hc]
    exact ih _ (corsair_crc8_table_lt c) (corsair_crc8_table_ne_zero ⟨c, hc⟩ hc0)

/-- The CRC-8 of a single-bit error vector is nonzero. -/
theorem crc8_unit_ne_zero (i k j : Nat) (hj : j < 8) :
    crc8 (List.replicate i 0 ++ (1 <<< j) :: List.replicate k 0) 0 ≠ 0 := by
  have hb : (1 <<< j) < 256 := by
    rw [Nat.one_shiftLeft]
    calc 2 ^ j < 2 ^ 8 := Nat.pow_lt_pow_right (by norm_num) hj
    _ = 256 := by norm_num
  have hb0 : (1 <<< j) ≠ 0 := by
    rw [Nat.one_shiftLeft]; positivity
  rw [crc8_append, crc8_replicate_zero, crc8_cons, Nat.zero_xor,
    and255_of_lt hb]
  exact crc8_replicate_zero_ne_zero k _ (corsair_crc8_table_lt _)
    (corsair_crc8_table_ne_zero ⟨_, hb⟩ hb0)

/-- C1: Report validation in hydro_platinum_transaction is
checksum-closed: a 64-byte inbound report passes iff CRC-8 (polynomial
0x07, initial value 0) over bytes 1..63 yields 0; flipping any single
bit of bytes 1..63 of a passing report makes validation fail; and a
report that fails validation makes hydro_platinum_update return -EIO
with every cached sensor field unchanged. -/
theorem hydro_platinum_checksum_closed (r : List Nat)
    (hlen : r.length = 64) :
    (hydro_platinum_crc_ok r = true ↔ crc8 (r.drop 1) 0 = 0)
    ∧ (hydro_platinum_crc_ok r = true →
        ∀ i j : Nat, 1 ≤ i → i < 64 → j < 8 →
          hydro_platinum_crc_ok (flip_bit r i j) = false)
    ∧ (∀ (s : HydroPlatinumData) (now : Int),
        (time_after now (s.updated + hydroStatusValidity) || !s.valid) = true →
        hydro_platinum_crc_ok r = false →
          (hydro_platinum_update s now (some r)).1 = .error (-errInputOutput)
          ∧ (hydro_platinum_update s now (some r)).2.fan_speed1 = s.fan_speed1
          ∧ (hydro_platinum_update s now (some r)).2.fan_speed2 = s.fan_speed2
          ∧ (hydro_platinum_update s now (some r)).2.fan_speed3 = s.fan_speed3
          ∧ (hydro_platinum_update s now (some r)).2.fan_duty1 = s.fan_duty1
          ∧ (hydro_platinum_update s now (some r)).2.fan_duty2 = s.fan_duty2
          ∧ (hydro_platinum_update s now (some r)).2.fan_duty3 = s.fan_duty3
          ∧ (hydro_platinum_update s now (some r)).2.pump_speed = s.pump_speed
          ∧ (hydro_platinum_update s now (some r)).2.pump_duty = s.pump_duty
          ∧ (hydro_platinum_update s now (some r)).2.liquid_temp = s.liquid_temp
          ∧ (hydro_platinum_update s now (some r)).2.fw_major = s.fw_major
          ∧ (hydro_platinum_update s now (some r)).2.fw_minor = s.fw_minor
          ∧ (hydro_platinum_update s now (some r)).2.fw_patch = s.fw_patch
          ∧ (hydro_platinum_update s now (some r)).2.updated = s.updated
          ∧ (hydro_platinum_update s now (some r)).2.valid = s.valid) := by
  have hm : (r.drop 1).length = 63 := by simp [hlen]
  have ht : (r.drop 1).take 63 = r.drop 1 :=
    List.take_of_length_le (le_of_eq hm)
  refine ⟨by simp only [hydro_platinum_crc_ok, ht, beq_iff_eq], ?_, ?_⟩
  · intro hok i j hi1 hi64 hj
    have hcrc0 : crc8 (r.drop 1) 0 = 0 := by
      simpa only [hydro_platinum_crc_ok, ht, beq_iff_eq] using hok
    have hdrop : (flip_bit r i j).drop 1 =
        (r.drop 1).set (i - 1) (r.getD i 0 ^^^ (1 <<< j)) := by
      unfold flip_bit
      rw [List.drop_set, if_neg (by omega)]
    have hgetD : (r.drop 1).getD (i - 1) 0 = r.getD i 0 := by
      simp only [List.getD_eq_getElem?_getD, List.getElem?_drop]
      rw [show 1 + (i - 1) = i by omega]
    have hkm : i - 1 < (r.drop 1).length := by rw [hm]; omega
    have hset := set_eq_zipWith_unit (r.drop 1) (i - 1) (1 <<< j) hkm
    have hlenE : (r.drop 1).length =
        (List.replicate (i - 1) 0 ++
          (1 <<< j) :: List.replicate ((r.drop 1).length - (i - 1) - 1) 0).length := by
      simp only [List.length_append, List.length_cons, List.length_replicate]
      omega
    have hne : crc8 ((flip_bit r i j).drop 1) 0 ≠ 0 := by
      rw [hdrop, ← hgetD, hset]
      have hlin := crc8_fold_linear (r.drop 1) _ hlenE 0 0
      rw [show (0 : Nat) ^^^ 0 = 0 from rfl] at hlin
      rw [hlin, hcrc0, Nat.zero_xor]
      exact crc8_unit_ne_zero (i - 1) _ j hj
    have hm' : ((flip_bit r i j).drop 1).length = 63 := by
      simp [flip_bit, hlen]
    have ht' : ((flip_bit r i j).drop 1).take 63 = (flip_bit r i j).drop 1 :=
      List.take_of_length_le (le_of_eq hm')
    simpa only [hydro_platinum_crc_ok, ht', beq_eq_false_iff_ne, ne_eq]
      using hne
  · intro s now hcond hcrc
    simp only [hydro_platinum_update, hcond, if_true, hcrc, Bool.false_eq_true,
      if_false]
    simp

/-- C1 witness: the all-zero 64-byte report passes validation, and
flipping bit 3 of byte 5 makes validation fail. -/
theorem hydro_platinum_checksum_closed_witness :
    hydro_platinum_crc_ok (List.replicate 64 0) = true
    ∧ hydro_platinum_crc_ok (flip_bit (List.replicate 64 0) 5 3) = false := by
  have h := hydro_platinum_checksum_closed (List.replicate 64 0) (by simp)
  have hok : hydro_platinum_crc_ok (List.replicate 64 0) = true := by
    unfold hydro_platinum_crc_ok
    rw [List.drop_replicate, List.take_replicate, crc8_replicate_zero]
    rfl
  exact ⟨hok, h.2.1 hok 5 3 (by decide) (by decide) (by decide)⟩

/-- A report whose byte 1 is 1 (rest zero) fails the CRC check. -/
theorem crc_ok_bad80 :
    hydro_platinum_crc_ok (0 :: 1 :: List.replicate 78 0) = false := by
  unfold hydro_platinum_crc_ok
  rw [show (0 :: 1 :: List.replicate 78 0).drop 1 =
      1 :: List.replicate 78 0 from rfl]
  rw [show (1 :: List.replicate 78 0).take 63 =
      1 :: (List.replicate 78 0).take 62 from rfl]
  rw [List.take_replicate, show min 62 78 = 62 from rfl, crc8_cons]
  rw [show corsair_crc8_table ((0 ^^^ 1) &&& 255) = 7 from by decide]
  exact beq_eq_false_iff_ne.mpr
    (crc8_replicate_zero_ne_zero 62 7 (by norm_num) (by norm_num))

/-- All-zero buffers pass the CRC check (with initial value 0 every
fold step keeps the accumulator at 0). -/
theorem crc_ok_replicate_zero (n : Nat) :
    hydro_platinum_crc_ok (List.replicate n 0) = true := by
  unfold hydro_platinum_crc_ok
  rw [List.drop_replicate, List.take_replicate, crc8_replicate_zero]
  rfl

/-- Delivering the 80-byte corrupt report overwrites the whole RX
buffer. -/
theorem raw_event_bad80 :
    hydro_platinum_raw_event true (List.replicate 80 0)
      (0 :: 1 :: List.replicate 78 0) =
      (0 :: 1 :: List.replicate 78 0, true) := by
  unfold hydro_platinum_raw_event
  rw [if_neg (by simp)]
  show (List.take (min (0 :: 1 :: List.replicate 78 0).length 80)
      (0 :: 1 :: List.replicate 78 0) ++
    List.drop (min (0 :: 1 :: List.replicate 78 0).length 80)
      (List.replicate 80 0), true) = _
  rw [show min (0 :: 1 :: List.replicate 78 0).length 80 = 80 from by simp]
  rw [List.take_of_length_le (by simp), List.drop_replicate]
  simp

/-- C2 counterexample: while a transaction is armed, delivery of a
corrupt inbound report (byte 1 flipped, checksum invalid) does not
leave the transaction armed: hydro_platinum_raw_event completes the
waiter for any input report, and the woken transaction resolves with
-EIO instead of continuing to wait for its own matching response or
timeout. -/
theorem hydro_platinum_foreign_report_resolves_counterexample :
    (hydro_platinum_raw_event true (List.replicate 80 0)
        (0 :: 1 :: List.replicate 78 0)).2 = true
    ∧ hydro_platinum_transaction_check
        (hydro_platinum_raw_event true (List.replicate 80 0)
          (0 :: 1 :: List.replicate 78 0)).1 = .error (-errInputOutput) := by
  rw [raw_event_bad80]
  refine ⟨rfl, ?_⟩
  unfold hydro_platinum_transaction_check
  rw [crc_ok_bad80, if_neg (by simp)]

/-- C2 amended: any inbound input report completes the armed waiter
(raw_event performs no sequence or header matching); the woken
transaction then resolves with -EIO when the report's checksum fails
and as success when it passes — so a corrupt or foreign report resolves
the pending transaction (with an error, or falsely as the response)
rather than leaving it armed until its own response or timeout. -/
theorem hydro_platinum_transaction_resolution :
    (∀ rxb data : List Nat,
      (hydro_platinum_raw_event true rxb data).2 = true)
    ∧ (∀ rxb data : List Nat,
      hydro_platinum_raw_event false rxb data = (rxb, false))
    ∧ (∀ rx : List Nat, hydro_platinum_crc_ok rx = false →
        hydro_platinum_transaction_check rx = .error (-errInputOutput))
    ∧ (∀ rx : List Nat, hydro_platinum_crc_ok rx = true →
        hydro_platinum_transaction_check rx = .ok ()) := by
  refine ⟨?_, ?_, ?_, ?_⟩ <;> intros <;>
    simp_all [hydro_platinum_raw_event, hydro_platinum_transaction_check]

/-- C2 amended witness: the corrupt report resolves as -EIO, the
all-zero (checksum-valid, never-requested) report resolves as
success. -/
theorem hydro_platinum_transaction_resolution_witness :
    hydro_platinum_transaction_check (0 :: 1 :: List.replicate 78 0) =
      .error (-errInputOutput)
    ∧ hydro_platinum_transaction_check (List.replicate 80 0) = .ok () :=
  ⟨hydro_platinum_transaction_resolution.2.2.1 _ crc_ok_bad80,
   hydro_platinum_transaction_resolution.2.2.2 _ (crc_ok_replicate_zero 80)⟩

/-- C3 counterexample: with HZ = 1000, a channel initialized by
grid3_driver_init_assume_locked at jiffies t0 = 0 and read at the very
same instant (now = 0, before any update) does NOT fail with the
staleness error: time_after(0, (0 - 3*HZ) + 3*HZ) is false, so
grid3_read succeeds and returns the zeroed placeholder rpm value 0. -/
theorem grid3_first_read_counterexample :
    grid3_read 1000 (grid3_init_channel_status 1000 0
      { rpms := 0, centiamps := 0, centivolts := 0, pwm := 0,
        fan_type := 0, updated := 0 }) 0 .fan = .ok 0 := by
  rfl

/-- C3 amended: the init routine sets updated to exactly
STATUS_VALIDITY * HZ in the past, so any read strictly after the
creation instant (now > t0) and before any update fails with -ENODATA;
after an update stamped u = updated, reads succeed with the cached
value while now - u ≤ STATUS_VALIDITY * HZ and fail with -ENODATA once
now - u is strictly larger. -/
theorem grid3_staleness_contract (hz t0 now : Int)
    (ch ch' : Grid3ChannelStatus) (ty : Grid3ReadKind) :
    (grid3_init_channel_status hz t0 ch).updated = t0 - 3 * hz
    ∧ (t0 < now →
        grid3_read hz (grid3_init_channel_status hz t0 ch) now ty =
          .error (-errNoData))
    ∧ (now - ch'.updated ≤ 3 * hz →
        grid3_read hz ch' now ty = .ok (grid3_cached_value ch' ty))
    ∧ (3 * hz < now - ch'.updated →
        grid3_read hz ch' now ty = .error (-errNoData)) := by
  refine ⟨rfl, ?_, ?_, ?_⟩
  · intro h
    have hcond : time_after now (t0 - 3 * hz + 3 * hz) = true := by
      unfold time_after
      rw [decide_eq_true_eq]
      omega
    unfold grid3_read grid3_init_channel_status
    simpa using hcond
  · intro h
    have hcond : time_after now (ch'.updated + 3 * hz) = false := by
      unfold time_after
      rw [decide_eq_false_iff_not]
      omega
    unfold grid3_read
    simp [hcond]
  · intro h
    have hcond : time_after now (ch'.updated + 3 * hz) = true := by
      unfold time_after
      rw [decide_eq_true_eq]
      omega
    unfold grid3_read
    simp [hcond]

/-- C3 amended witness: with HZ = 1000 and creation at t0 = 0, a read
at now = 1 fails -ENODATA; after an update stamped 0, a read at
now = 3000 (exactly the window) still succeeds with the cached rpm 7,
and a read at now = 3001 fails -ENODATA. -/
theorem grid3_staleness_contract_witness :
    grid3_read 1000 (grid3_init_channel_status 1000 0
      { rpms := 0, centiamps := 0, centivolts := 0, pwm := 0,
        fan_type := 0, updated := 0 }) 1 .fan = .error (-errNoData)
    ∧ grid3_read 1000
      { rpms := 7, centiamps := 0, centivolts := 0, pwm := 0,
        fan_type := 0, updated := 0 } 3000 .fan = .ok 7
    ∧ grid3_read 1000
      { rpms := 7, centiamps := 0, centivolts := 0, pwm := 0,
        fan_type := 0, updated := 0 } 3001 .fan = .error (-errNoData) := by
  refine ⟨?_, ?_, ?_⟩
  · exact (grid3_staleness_contract 1000 0 1
      { rpms := 0, centiamps := 0, centivolts := 0, pwm := 0,
        fan_type := 0, updated := 0 }
      { rpms := 0, centiamps := 0, centivolts := 0, pwm := 0,
        fan_type := 0, updated := 0 } .fan).2.1 (by norm_num)
  · have h := (grid3_staleness_contract 1000 0 3000
      { rpms := 0, centiamps := 0, centivolts := 0, pwm := 0,
        fan_type := 0, updated := 0 }
      { rpms := 7, centiamps := 0, centivolts := 0, pwm := 0,
        fan_type := 0, updated := 0 } .fan).2.2.1 (by norm_num)
    simpa using h
  · exact (grid3_staleness_contract 1000 0 3001
      { rpms := 0, centiamps := 0, centivolts := 0, pwm := 0,
        fan_type := 0, updated := 0 }
      { rpms := 7, centiamps := 0, centivolts := 0, pwm := 0,
        fan_type := 0, updated := 0 } .fan).2.2.2 (by norm_num)

/-- C4 counterexample: the grid3 write path does NOT embed the
round-to-nearest percent: for host value 4 it transmits
4 * 100 / 255 = 1 (truncating), while round-to-nearest of 4*100/255
is 2. -/
theorem grid3_duty_truncation_counterexample :
    ¬ ((grid3_write_pwm_assume_locked
        { rpms := 0, centiamps := 0, centivolts := 0, pwm := 0,
          fan_type := 0, updated := 0 } 0 4 5).2.1.getD 4 0 =
      round_nearest_spec (4 * 100) 255) := by
  decide

/-- C4 amended: kraken3_pwm_to_percent computes round-to-nearest of
val*100/255 (rejecting results outside 20..100), and the rgb fan
controller's host-facing conversion computes round-to-nearest of
percent*255/100; the grid3 and smartdevice write paths instead embed
the truncated quotient val * 100 / 255 in byte 4 of their output
report. -/
theorem duty_scaling_rounding :
    (∀ v : Nat, v < 256 →
      kraken3_pwm_to_percent (v : Int) =
        (if round_nearest_spec (v * 100) 255 < 20 ∨
            100 < round_nearest_spec (v * 100) 255 then -errInvalidValue
         else (round_nearest_spec (v * 100) 255 : Int)))
    ∧ (∀ (ch : Grid3ChannelStatus) (c v : Nat) (ret : Int), v < 256 →
        (grid3_write_pwm_assume_locked ch c (v : Int) ret).2.1 =
          [0x02, 0x4d, c, 0x00, v * 100 / 255])
    ∧ (∀ (ch : SmartdeviceChannelData) (c v : Nat) (ret : Int), v < 256 →
        (smartdevice_write_pwm_unlocked ch c (v : Int) ret).2.1 =
          [0x02, 0x4d, c, 0x00, v * 100 / 255])
    ∧ (∀ p : Nat, p < 101 →
        rgb_read_pwm_input p = (round_nearest_spec (p * 255) 100 : Int)) := by
  refine ⟨by decide, ?_, ?_, by decide⟩
  · intro ch c v ret hv
    have hclamp : clamp_val (v : Int) 0 255 = (v : Int) := by
      unfold clamp_val
      omega
    unfold grid3_write_pwm_assume_locked
    rw [hclamp, Int.toNat_natCast]
    split
    · rfl
    · split <;> rfl
  · intro ch c v ret hv
    have hclamp : clamp_val (v : Int) 0 255 = (v : Int) := by
      unfold clamp_val
      omega
    unfold smartdevice_write_pwm_unlocked
    rw [hclamp, Int.toNat_natCast]
    split
    · rfl
    · split <;> rfl

/-- C4 amended witness: host value 128 converts to 50 percent in
kraken3, grid3 transmits byte 50 for it, and device percent 50
converts back to host value 128. -/
theorem duty_scaling_rounding_witness :
    kraken3_pwm_to_percent ((128 : Nat) : Int) = 50
    ∧ (grid3_write_pwm_assume_locked
        { rpms := 0, centiamps := 0, centivolts := 0, pwm := 0,
          fan_type := 0, updated := 0 } 0 ((128 : Nat) : Int) 5).2.1 =
      [0x02, 0x4d, 0, 0x00, 50]
    ∧ rgb_read_pwm_input 50 = 128 := by
  refine ⟨?_, ?_, ?_⟩
  · have h := duty_scaling_rounding.1 128 (by norm_num)
    norm_num [round_nearest_spec] at h
    exact h
  · have h := duty_scaling_rounding.2.1
      { rpms := 0, centiamps := 0, centivolts := 0, pwm := 0,
        fan_type := 0, updated := 0 } 0 128 5 (by norm_num)
    norm_num at h
    exact h
  · have h := duty_scaling_rounding.2.2.2 50 (by norm_num)
    norm_num [round_nearest_spec] at h
    exact h

/-- Byte 4+i of the transmitted fixed-duty curve report is the curve
point i: the fixed percent below the critical point, 100 at it. -/
theorem kraken3_curve_report_byte (p ch i : Nat) (hi : i < 40) :
    (kraken3_write_curve (kraken3_fixed_curve p) ch).getD (4 + i) 0 =
      if i < 39 then p else 100 := by
  unfold kraken3_write_curve kraken3_fixed_curve x53_set_pump_duty_cmd_header
  rw [List.getD_eq_getElem?_getD]
  rw [List.getElem?_append_left (by simp; omega)]
  rw [List.getElem?_append_right (by simp)]
  rw [show 4 + i - ([0x72, 0x00, 0x00, 0x00].set 1
      (if ch = 0 then 1 else 2)).length = i from by simp]
  rw [List.getElem?_ofFn]
  unfold List.ofFnNthVal
  simp [hi]

/-- C5: an accepted fixed-duty write on the curve-only kraken3 device
transmits exactly one fully composed 40-point curve report: bytes 4..42
(sub-critical points 0..38) carry the converted percent, byte 43 (the
critical-temperature point 39) is forced to 100, and host value 255
yields 100 at every point; the curve is built fresh, so no transmitted
point can retain a stale prior value. -/
theorem kraken3_fixed_duty_curve_fill (channel : Nat) (val : Int)
    (hacc : 0 ≤ kraken3_pwm_to_percent val) :
    (kraken3_write channel val).1 = 0
    ∧ (kraken3_write channel val).2 =
        [kraken3_write_curve
          (kraken3_fixed_curve (kraken3_pwm_to_percent val).toNat) channel]
    ∧ (∀ i : Nat, i < 39 →
        ((kraken3_write channel val).2.getD 0 []).getD (4 + i) 0 =
          (kraken3_pwm_to_percent val).toNat)
    ∧ ((kraken3_write channel val).2.getD 0 []).getD (4 + 39) 0 = 100
    ∧ (val = 255 →
        ∀ i : Nat, i < 40 →
          ((kraken3_write channel val).2.getD 0 []).getD (4 + i) 0 = 100) := by
  have hw : kraken3_write channel val =
      (0, [kraken3_write_curve
        (kraken3_fixed_curve (kraken3_pwm_to_percent val).toNat) channel]) := by
    unfold kraken3_write
    rw [if_neg (by omega)]
  refine ⟨by rw [hw], by rw [hw], ?_, ?_, ?_⟩
  · intro i hi
    rw [hw]
    simp only [List.getD_cons_zero]
    rw [kraken3_curve_report_byte _ _ i (by omega), if_pos hi]
  · rw [hw]
    simp only [List.getD_cons_zero]
    rw [kraken3_curve_report_byte _ _ 39 (by norm_num), if_neg (by norm_num)]
  · intro hval i hi
    subst hval
    rw [hw]
    simp only [List.getD_cons_zero]
    rw [kraken3_curve_report_byte _ _ i hi]
    rw [show kraken3_pwm_to_percent 255 = 100 from by decide]
    split <;> rfl

/-- C5 witness: host value 128 fills points with 50 and the critical
point with 100; host value 255 fills every point with 100. -/
theorem kraken3_fixed_duty_curve_fill_witness :
    ((kraken3_write 0 128).2.getD 0 []).getD (4 + 0) 0 = 50
    ∧ ((kraken3_write 0 128).2.getD 0 []).getD (4 + 39) 0 = 100
    ∧ ((kraken3_write 0 255).2.getD 0 []).getD (4 + 7) 0 = 100 := by
  have h128 := kraken3_fixed_duty_curve_fill 0 128 (by decide)
  have h255 := kraken3_fixed_duty_curve_fill 0 255 (by decide)
  refine ⟨?_, h128.2.2.2.1, h255.2.2.2.2 rfl 7 (by norm_num)⟩
  have h := h128.2.2.1 0 (by norm_num)
  rw [show kraken3_pwm_to_percent 128 = 50 from by decide] at h
  simpa using h

/-- C6: whole-value validation precedes any transmission: a kraken3
control write with a host value outside 0..255, or whose converted
percent falls outside the enforced 20..100 range, fails with -EINVAL
and transmits nothing; a hanbo curve whose duty values decrease with
increasing temperature fails with -EINVAL, transmits nothing and leaves
the channel state unchanged. -/
theorem validation_precedes_transmission :
    (∀ (channel : Nat) (val : Int), val < 0 ∨ 255 < val →
        kraken3_write channel val = (-errInvalidValue, []))
    ∧ (∀ (channel : Nat) (val : Int), 0 ≤ val → val ≤ 255 →
        (div_round_closest (val * 100) 255 < 20 ∨
          100 < div_round_closest (val * 100) 255) →
        kraken3_write channel val = (-errInvalidValue, []))
    ∧ (∀ (st : HanboPwmChannel) (channel : Nat) (sendRet : Int),
        channel ≤ 1 →
        hanbo_curve_decreasing st.pwm_points = true →
        hanbo_hid_profile_send st channel CURVE_PROFILE_ID sendRet =
          (-errInvalidValue, [], st)) := by
  refine ⟨?_, ?_, ?_⟩
  · intro channel val h
    have hp : kraken3_pwm_to_percent val = -errInvalidValue := by
      unfold kraken3_pwm_to_percent
      rw [if_pos h]
    unfold kraken3_write
    rw [hp, if_pos (by norm_num [errInvalidValue])]
  · intro channel val h0 h255 hout
    have hp : kraken3_pwm_to_percent val = -errInvalidValue := by
      unfold kraken3_pwm_to_percent
      rw [if_neg (by omega), if_pos hout]
    unfold kraken3_write
    rw [hp, if_pos (by norm_num [errInvalidValue])]
  · intro st channel sendRet hch hdec
    unfold hanbo_hid_profile_send
    rw [if_neg (by omega), if_neg (by norm_num [QUIET_PROFILE_ID,
      CURVE_PROFILE_ID]), if_pos rfl, if_pos hdec]

/-- C6 witness: host value 300 (out of 0..255) and host value 10
(percent 4, below the 20 minimum) are rejected with nothing sent, and a
decreasing hanbo curve is rejected with nothing sent and the channel
state intact. -/
theorem validation_precedes_transmission_witness :
    kraken3_write 0 300 = (-errInvalidValue, [])
    ∧ kraken3_write 0 10 = (-errInvalidValue, [])
    ∧ hanbo_hid_profile_send
        { pwm_points := [5, 4, 0, 0, 0, 0, 0, 0, 0],
          profile_sticky := false, active_profile := 0 } 0 4 0 =
      (-errInvalidValue, [],
        { pwm_points := [5, 4, 0, 0, 0, 0, 0, 0, 0],
          profile_sticky := false, active_profile := 0 }) := by
  refine ⟨?_, ?_, ?_⟩
  · exact validation_precedes_transmission.1 0 300 (by norm_num)
  · exact validation_precedes_transmission.2.1 0 10 (by norm_num)
      (by norm_num) (by decide)
  · exact validation_precedes_transmission.2.2
      { pwm_points := [5, 4, 0, 0, 0, 0, 0, 0, 0],
        profile_sticky := false, active_profile := 0 } 0 0
      (by norm_num) (by decide)

/-- C7: hydro_platinum_write_cooling sends the main cooling command
(FEATURE_COOLING: pump + fans 1 and 2) first; if the main transaction
fails, the secondary (FEATURE_COOLING_FAN3) is never sent; and whatever
the secondary's outcome, the main command appears exactly once in the
transmitted trace (never re-sent or duplicated). -/
theorem hydro_platinum_main_before_secondary (p : HydroTargets)
    (outcome : Nat → Except Int Unit) :
    ((hydro_platinum_write_cooling p outcome).2.head? =
      some (FEATURE_COOLING, hydro_platinum_cooling_payload p))
    ∧ (∀ e : Int, outcome 0 = .error e →
        (hydro_platinum_write_cooling p outcome).2 =
          [(FEATURE_COOLING, hydro_platinum_cooling_payload p)]
        ∧ (hydro_platinum_write_cooling p outcome).1 = .error e)
    ∧ ((hydro_platinum_write_cooling p outcome).2.countP
        (fun t => t.1 == FEATURE_COOLING) = 1)
    ∧ (∀ e : Int, outcome 0 = .ok () → outcome 1 = .error e →
        3 ≤ p.fan_count →
        (hydro_platinum_write_cooling p outcome).2 =
          [(FEATURE_COOLING, hydro_platinum_cooling_payload p),
           (FEATURE_COOLING_FAN3,
            hydro_platinum_cooling_payload2 p
              (hydro_platinum_cooling_payload p))]
        ∧ (hydro_platinum_write_cooling p outcome).1 = .error e) := by
  cases h0 : outcome 0 with
  | error e0 =>
    have hw : hydro_platinum_write_cooling p outcome =
        (.error e0, [(FEATURE_COOLING, hydro_platinum_cooling_payload p)]) := by
      unfold hydro_platinum_write_cooling
      rw [h0]
    refine ⟨by rw [hw]; rfl, ?_, ?_, ?_⟩
    · intro e he
      injection he with he'
      subst he'
      exact ⟨by rw [hw], by rw [hw]⟩
    · rw [hw]
      simp [List.countP_cons, FEATURE_COOLING]
    · intro e hok
      exact absurd hok (by simp)
  | ok u =>
    cases u
    by_cases hfc : 3 ≤ p.fan_count
    · cases h1 : outcome 1 with
      | error e1 =>
        have hw : hydro_platinum_write_cooling p outcome =
            (.error e1,
             [(FEATURE_COOLING, hydro_platinum_cooling_payload p),
              (FEATURE_COOLING_FAN3,
               hydro_platinum_cooling_payload2 p
                 (hydro_platinum_cooling_payload p))]) := by
          unfold hydro_platinum_write_cooling
          rw [h0]
          simp [h1, hfc]
        refine ⟨by rw [hw]; rfl, ?_, ?_, ?_⟩
        · intro e he
          exact absurd he (by simp)
        · rw [hw]
          simp [List.countP_cons, FEATURE_COOLING, FEATURE_COOLING_FAN3]
        · intro e _ he1 _
          injection he1 with he'
          subst he'
          exact ⟨by rw [hw], by rw [hw]⟩
      | ok u1 =>
        cases u1
        have hw : hydro_platinum_write_cooling p outcome =
            (.ok (),
             [(FEATURE_COOLING, hydro_platinum_cooling_payload p),
              (FEATURE_COOLING_FAN3,
               hydro_platinum_cooling_payload2 p
                 (hydro_platinum_cooling_payload p))]) := by
          unfold hydro_platinum_write_cooling
          rw [h0]
          simp [h1, hfc]
        refine ⟨by rw [hw]; rfl, ?_, ?_, ?_⟩
        · intro e he
          exact absurd he (by simp)
        · rw [hw]
          simp [List.countP_cons, FEATURE_COOLING, FEATURE_COOLING_FAN3]
        · intro e _ he1 _
          exact absurd he1 (by simp)
    · have hw : hydro_platinum_write_cooling p outcome =
          (.ok (), [(FEATURE_COOLING, hydro_platinum_cooling_payload p)]) := by
        unfold hydro_platinum_write_cooling
        rw [h0]
        simp [hfc]
      refine ⟨by rw [hw]; rfl, ?_, ?_, ?_⟩
      · intro e he
        exact absurd he (by simp)
      · rw [hw]
        simp [List.countP_cons, FEATURE_COOLING]
      · intro e _ _ hfc'
        exact absurd hfc' hfc

/-- C7 witness: with three fans, a main success followed by a secondary
failure yields the trace [main, secondary] — the main command was sent
first and exactly once, not re-sent after the secondary fault. -/
theorem hydro_platinum_main_before_secondary_witness :
    (hydro_platinum_write_cooling
      { fan_count := 3, target_pump_mode := 1, target_fan_mode1 := 2,
        target_fan_mode2 := 2, target_fan_mode3 := 2,
        target_fan_duty1 := 50, target_fan_duty2 := 50,
        target_fan_duty3 := 50 }
      (fun n => if n = 0 then .ok () else .error (-errBrokenPipe))).2 =
      [(FEATURE_COOLING, hydro_platinum_cooling_payload
        { fan_count := 3, target_pump_mode := 1, target_fan_mode1 := 2,
          target_fan_mode2 := 2, target_fan_mode3 := 2,
          target_fan_duty1 := 50, target_fan_duty2 := 50,
          target_fan_duty3 := 50 }),
       (FEATURE_COOLING_FAN3, hydro_platinum_cooling_payload2
        { fan_count := 3, target_pump_mode := 1, target_fan_mode1 := 2,
          target_fan_mode2 := 2, target_fan_mode3 := 2,
          target_fan_duty1 := 50, target_fan_duty2 := 50,
          target_fan_duty3 := 50 }
        (hydro_platinum_cooling_payload
          { fan_count := 3, target_pump_mode := 1, target_fan_mode1 := 2,
            target_fan_mode2 := 2, target_fan_mode3 := 2,
            target_fan_duty1 := 50, target_fan_duty2 := 50,
            target_fan_duty3 := 50 }))]
    ∧ (hydro_platinum_write_cooling
      { fan_count := 3, target_pump_mode := 1, target_fan_mode1 := 2,
        target_fan_mode2 := 2, target_fan_mode3 := 2,
        target_fan_duty1 := 50, target_fan_duty2 := 50,
        target_fan_duty3 := 50 }
      (fun n => if n = 0 then .ok () else .error (-errBrokenPipe))).1 =
      .error (-errBrokenPipe) :=
  (hydro_platinum_main_before_secondary
    { fan_count := 3, target_pump_mode := 1, target_fan_mode1 := 2,
      target_fan_mode2 := 2, target_fan_mode3 := 2,
      target_fan_duty1 := 50, target_fan_duty2 := 50,
      target_fan_duty3 := 50 }
    (fun n => if n = 0 then .ok () else .error (-errBrokenPipe))).2.2.2
    (-errBrokenPipe) rfl rfl (by norm_num)

/-- C8: the decoded millidegree temperature equals degrees*1000 plus the
fractional byte scaled to millidegrees (truncating integer division by
255); with 0x32 in the fractional byte (offset 7) and 0x1E in the
degrees byte (offset 8), the status parse yields
30*1000 + 0x32*1000/255 = 30196 millidegrees. -/
theorem hydro_platinum_temp_decode :
    (∀ (s : HydroPlatinumData) (now : Int) (rx : List Nat),
      (hydro_platinum_parse_status s now rx).liquid_temp =
        (rx.getD 8 0 : Int) * 1000 + (rx.getD 7 0 : Int) * 1000 / 255)
    ∧ hydro_platinum_decode_temp 0x1E 0x32 = 30 * 1000 + 0x32 * 1000 / 255
    ∧ hydro_platinum_decode_temp 0x1E 0x32 = 30196
    ∧ (hydro_platinum_parse_status hydroZeroState 1
        (((List.replicate 64 0).set 7 0x32).set 8 0x1E)).liquid_temp =
      30196 := by
  refine ⟨?_, by decide, by decide, by decide⟩
  intro s now rx
  unfold hydro_platinum_parse_status hydro_platinum_decode_temp
  dsimp only
  split <;> split <;> split <;> split <;> rfl

/-- C9: the inbound status report handlers accept a channel index equal
to the session's channel count: with 6 channels (Grid+ V3), a report
whose byte 15 has high nibble 6 passes the `channel > priv->channels`
guard and its decoded fields are written to index 6 — one past the end
of the 6-entry per-channel array — while an index of 7 is discarded;
the smartdevice handler (3 channels, index 3) behaves identically. -/
theorem grid3_channel_index_offbyone :
    ((grid3_raw_event 6 0x04 (List.replicate 15 0 ++ [0x60])
        ⟨0, 0, 0, 0, 0, 0⟩ 5).map Prod.fst = some 6 ∧ ¬ (6 < 6))
    ∧ grid3_raw_event 6 0x04 (List.replicate 15 0 ++ [0x70])
        ⟨0, 0, 0, 0, 0, 0⟩ 5 = none
    ∧ ((smartdevice_raw_event 3 0x04 (List.replicate 15 0 ++ [0x30])
        ⟨0, 0, 0, 0, 0, 0⟩ 5).map Prod.fst = some 3 ∧ ¬ (3 < 3))
    ∧ smartdevice_raw_event 3 0x04 (List.replicate 15 0 ++ [0x40])
        ⟨0, 0, 0, 0, 0, 0⟩ 5 = none := by
  refine ⟨⟨?_, by norm_num⟩, ?_, ⟨?_, by norm_num⟩, ?_⟩ <;> decide

/-- C10: the percent round trip through the rounding scaler is the
identity: converting a device-reported duty percent p (0..100) to the
0..255 host scale (the pwm read path) and back through set_pwm's
conversion recovers p exactly. -/
theorem scale_value_round_trip (p : Nat) (hp : p < 101) :
    rgb_set_pwm_duty_percent (rgb_read_pwm_input p) = (p : Int)
    ∧ scale_value (scale_value (p : Int) 100 255) 255 100 = (p : Int) := by
  have h : ∀ q : Nat, q < 101 →
      scale_value (scale_value (q : Int) 100 255) 255 100 = (q : Int) := by
    decide
  exact ⟨h p hp, h p hp⟩

/-- C10 witness: percent 50 maps to host 128 and back to 50. -/
theorem scale_value_round_trip_witness :
    rgb_set_pwm_duty_percent (rgb_read_pwm_input 50) = ((50 : Nat) : Int) :=
  (scale_value_round_trip 50 (by norm_num)).1

end Liquidtux
